import Mathlib

/-!
# Verification of the pound text viewer (src/main.rs)

Shallow embedding of the viewer's core: the line renderer (`EditorRows::render_row`),
the document store (`EditorRows`), the viewport/cursor controller
(`CursorController::move_cursor`, `CursorController::scroll`,
`CursorController::get_render_x`) and the screen compositor (`Output::draw_rows`,
`Output::refresh_screen`).  Strings are modelled as `List Char` (the source is
ASCII-oriented; the Rust byte index into `row_content` coincides with the character
index on such input).  `usize` arithmetic is modelled with `Nat`; the only
subtractions performed by the source are guarded so truncated `Nat` subtraction
agrees with the Rust values at every use site that the theorems exercise.
-/

/-- Mirrors `const TAB_STOP: usize = 8;`. -/
def TAB_STOP : Nat := 8

/-- Fuel-bounded body of the `while index % TAB_STOP != 0` loop in
`EditorRows::render_row`.  One loop iteration pushes a space and increments
`index`; the loop runs at most `TAB_STOP - 1` times, so fuel `TAB_STOP` is
always sufficient (`padLoopGo_spec` below gives the exact closed form, which is
the value the unbounded Rust loop computes). -/
def padLoopGo : Nat → Nat → List Char → Nat × List Char
  | 0, index, out => (index, out)
  | fuel + 1, index, out =>
    if index % TAB_STOP ≠ 0 then padLoopGo fuel (index + 1) (out ++ [' '])
    else (index, out)

/-- The padding loop of `render_row`, entered after the first space of a tab has
been pushed and `index` already incremented. -/
def padLoop (index : Nat) (out : List Char) : Nat × List Char :=
  padLoopGo TAB_STOP index out

/-- Mirrors the `for_each` body of `EditorRows::render_row`: walks the raw
characters carrying the running column counter `index` and the output built so
far.  For each character `index` is incremented first; a tab pushes one space
and then pads via `padLoop`; any other character is copied verbatim. -/
def renderRowAux : List Char → Nat → List Char → Nat × List Char
  | [], index, out => (index, out)
  | c :: cs, index, out =>
    if c = '\t' then
      let p := padLoop (index + 1) (out ++ [' '])
      renderRowAux cs p.1 p.2
    else
      renderRowAux cs (index + 1) (out ++ [c])

/-- The rendered form produced by `EditorRows::render_row` for a raw line. -/
def renderRow (raw : List Char) : List Char := (renderRowAux raw 0 []).2

/-- The final value of the column counter `index` of `EditorRows::render_row`. -/
def renderColumn (raw : List Char) : Nat := (renderRowAux raw 0 []).1

/-- Mirrors `struct Row`: raw content plus cached rendered form. -/
structure Row where
  row_content : List Char
  render : List Char
deriving DecidableEq, Repr

instance : Inhabited Row := ⟨⟨[], []⟩⟩

/-- A freshly loaded row: `Row::new(it.into(), String::new())` followed by
`EditorRows::render_row`, as done in `EditorRows::from_file`. -/
def mkRow (raw : List Char) : Row := { row_content := raw, render := renderRow raw }

/-- Mirrors `EditorRows::from_file`: each input line becomes a rendered `Row`.
The document is the list of rows (`row_contents`). -/
def from_file (lines : List (List Char)) : List Row := lines.map mkRow

/-- Mirrors `EditorRows::number_of_rows`. -/
def number_of_rows (rows : List Row) : Nat := rows.length

/-- Mirrors `EditorRows::get_render` (the Rust indexing panics out of bounds;
every in-source call is guarded by `number_of_rows`, and the guarded theorems
below never evaluate the default). -/
def get_render (rows : List Row) (i : Nat) : List Char := (rows.getD i default).render

/-- Mirrors `EditorRows::get_editor_row` (same bounds discipline as
`get_render`). -/
def get_editor_row (rows : List Row) (i : Nat) : Row := rows.getD i default

/-- Mirrors `struct CursorController`. -/
structure CursorController where
  cursor_x : Nat
  cursor_y : Nat
  screen_columns : Nat
  screen_rows : Nat
  row_offset : Nat
  column_offset : Nat
  render_x : Nat
deriving DecidableEq, Repr

/-- Mirrors `CursorController::new(win_size)` with `win_size = (columns, rows)`. -/
def CursorController.new (win_size : Nat × Nat) : CursorController :=
  { cursor_x := 0
    cursor_y := 0
    screen_columns := win_size.1
    screen_rows := win_size.2
    row_offset := 0
    column_offset := 0
    render_x := 0 }

/-- The six `KeyCode`s that reach `CursorController::move_cursor` (the
`_ => unimplemented!()` arm is unreachable from `process_keypress`). -/
inductive MoveDir
  | Up | Down | Left | Right | Home | End
deriving DecidableEq, Repr

/-- The `match direction` block of `CursorController::move_cursor`, before the
final clamp.  `saturating_sub` is `Nat` subtraction; the guarded `cursor_y -= 1`
of the Left arm happens before the rendered length of the new row is read. -/
def move_cursor_step (s : CursorController) (direction : MoveDir) (rows : List Row) :
    CursorController :=
  let num_of_rows := number_of_rows rows
  match direction with
  | .Up => { s with cursor_y := s.cursor_y - 1 }
  | .Left =>
    if s.cursor_x ≠ 0 then { s with cursor_x := s.cursor_x - 1 }
    else if s.cursor_y > 0 then
      { s with cursor_y := s.cursor_y - 1,
               cursor_x := (get_render rows (s.cursor_y - 1)).length }
    else s
  | .Down =>
    if s.cursor_y < num_of_rows then { s with cursor_y := s.cursor_y + 1 } else s
  | .Right =>
    if s.cursor_y < num_of_rows then
      if s.cursor_x < (get_render rows s.cursor_y).length then
        { s with cursor_x := s.cursor_x + 1 }
      else if s.cursor_x = (get_render rows s.cursor_y).length then
        { s with cursor_y := s.cursor_y + 1, cursor_x := 0 }
      else s
    else s
  | .End =>
    if s.cursor_y < num_of_rows then
      { s with cursor_x := (get_render rows s.cursor_y).length }
    else s
  | .Home => { s with cursor_x := 0 }

/-- The trailing clamp of `move_cursor`: `cursor_x = min(cursor_x, row_len)`
where `row_len` is the rendered length of the current row, or `0` past the end. -/
def clamp_cursor_x (s : CursorController) (rows : List Row) : CursorController :=
  let row_len := if s.cursor_y < number_of_rows rows
    then (get_render rows s.cursor_y).length else 0
  { s with cursor_x := min s.cursor_x row_len }

/-- Mirrors `CursorController::move_cursor`: the direction match followed by the
clamp of `cursor_x`. -/
def move_cursor (s : CursorController) (direction : MoveDir) (rows : List Row) :
    CursorController :=
  clamp_cursor_x (move_cursor_step s direction rows) rows

/-- The fold body of `CursorController::get_render_x` (left-associated Rust
expression `render_x + (TAB_STOP - 1) - (render_x % TAB_STOP) + 1`; no `usize`
underflow occurs since `render_x % TAB_STOP ≤ TAB_STOP - 1`). -/
def render_x_step (render_x : Nat) (c : Char) : Nat :=
  if c = '\t' then render_x + (TAB_STOP - 1) - render_x % TAB_STOP + 1
  else render_x + 1

/-- Mirrors `CursorController::get_render_x`.  The Rust code slices
`row.row_content[..self.cursor_x]`, which panics when `cursor_x` exceeds the raw
length; `List.take` models the in-bounds slice, and `get_render_x_in_bounds`
states the bound the slice needs. -/
def get_render_x (cursor_x : Nat) (row : Row) : Nat :=
  (row.row_content.take cursor_x).foldl render_x_step 0

/-- The precondition of the slice `row.row_content[..cursor_x]` inside
`CursorController::get_render_x` as invoked from `scroll`: whenever the cursor
is on a document row, `cursor_x` must not exceed that row's raw length. -/
def get_render_x_in_bounds (s : CursorController) (rows : List Row) : Prop :=
  s.cursor_y < number_of_rows rows →
    s.cursor_x ≤ (get_editor_row rows s.cursor_y).row_content.length

instance (s : CursorController) (rows : List Row) :
    Decidable (get_render_x_in_bounds s rows) := by
  unfold get_render_x_in_bounds; infer_instance

/-- Mirrors `CursorController::scroll`: recompute `render_x`, then clamp the row
offset to the cursor, then clamp the column offset.  Note the source lowers
`column_offset` with `cursor_x` (not `render_x`).  The subtractions
`cursor_y - screen_rows + 1` and `render_x - screen_columns + 1` are guarded by
the `≥` tests, so `Nat` subtraction matches `usize`. -/
def scroll (s : CursorController) (rows : List Row) : CursorController :=
  let render_x := if s.cursor_y < number_of_rows rows
    then get_render_x s.cursor_x (get_editor_row rows s.cursor_y) else 0
  let row_offset := min s.row_offset s.cursor_y
  let row_offset := if s.cursor_y ≥ row_offset + s.screen_rows
    then s.cursor_y - s.screen_rows + 1 else row_offset
  let column_offset := min s.column_offset s.cursor_x
  let column_offset := if render_x ≥ column_offset + s.screen_columns
    then render_x - s.screen_columns + 1 else column_offset
  { s with render_x := render_x, row_offset := row_offset, column_offset := column_offset }

/-- Mirrors `struct Output` (without the byte buffer `editor_contents`, whose
content the compositor model below produces directly).  `win_cols, win_rows`
are `win_size.0, win_size.1`. -/
structure Output where
  win_cols : Nat
  win_rows : Nat
  cursor_controller : CursorController
  editor_rows : List Row
deriving DecidableEq, Repr

/-- Mirrors `Output::new`, parameterised by the terminal size and the loaded
document (in the source these come from `terminal::size()` and
`EditorRows::new()`). -/
def Output.new (win_size : Nat × Nat) (rows : List Row) : Output :=
  { win_cols := win_size.1
    win_rows := win_size.2
    cursor_controller := CursorController.new win_size
    editor_rows := rows }

/-- The keys `Editor::process_keypress` acts on: the six single-step movement
keys plus the page keys. -/
inductive Command
  | Move (d : MoveDir)
  | PageUp
  | PageDown
deriving DecidableEq, Repr

/-- Mirrors the movement arms of `Editor::process_keypress` (the `Ctrl-q` exit
and the ignored keys do not touch the cursor state).  The page arms first set
`cursor_y` (to `row_offset`, or to
`min(win_size.1 + row_offset - 1, number_of_rows())`), then run
`(0..win_size.1).for_each(|_| move_cursor(Up/Down))`. -/
def process_keypress (o : Output) (k : Command) : Output :=
  match k with
  | .Move d =>
    { o with cursor_controller := move_cursor o.cursor_controller d o.editor_rows }
  | .PageUp =>
    let c := { o.cursor_controller with cursor_y := o.cursor_controller.row_offset }
    let c := (List.range o.win_rows).foldl (fun c _ => move_cursor c .Up o.editor_rows) c
    { o with cursor_controller := c }
  | .PageDown =>
    let c := { o.cursor_controller with
      cursor_y := min (o.win_rows + o.cursor_controller.row_offset - 1)
        (number_of_rows o.editor_rows) }
    let c := (List.range o.win_rows).foldl (fun c _ => move_cursor c .Down o.editor_rows) c
    { o with cursor_controller := c }

/-- A finite key sequence fed to `Editor::process_keypress`, in order. -/
def apply_keys (o : Output) (ks : List Command) : Output := ks.foldl process_keypress o

/-- The banner text `format!("Pound Editor --- Version {}", "3.0.0")`. -/
def welcomeMessage : List Char := "Pound Editor --- Version 3.0.0".toList

/-- The welcome-banner row of `Output::draw_rows`: truncate to the screen
width, then pad — a leading tilde replaces the first padding space when there
is any padding. -/
def welcome_row (screen_columns : Nat) : List Char :=
  let welcome := welcomeMessage
  let welcome := if welcome.length > screen_columns
    then welcome.take screen_columns else welcome
  let padding := (screen_columns - welcome.length) / 2
  if padding ≠ 0 then ('~' :: List.replicate (padding - 1) ' ') ++ welcome
  else welcome

/-- The visible content of physical screen row `i` as emitted by
`Output::draw_rows` (the trailing clear-to-end-of-line escape and the `\r\n`
separators are terminal bookkeeping, not row content). -/
def draw_row (o : Output) (i : Nat) : List Char :=
  let file_row := i + o.cursor_controller.row_offset
  if file_row ≥ number_of_rows o.editor_rows then
    if number_of_rows o.editor_rows = 0 ∧ i = o.win_rows / 3 then
      welcome_row o.win_cols
    else ['~']
  else
    let row := get_render o.editor_rows file_row
    let column_offset := o.cursor_controller.column_offset
    let len := min (row.length - column_offset) o.win_cols
    let start := if len = 0 then 0 else column_offset
    (row.drop start).take len

/-- Mirrors the `for i in 0..screen_rows` loop of `Output::draw_rows`. -/
def draw_rows (o : Output) : List (List Char) :=
  (List.range o.win_rows).map (draw_row o)

/-- The state update performed by `Output::refresh_screen` before drawing:
`self.cursor_controller.scroll(&self.editor_rows)`. -/
def refresh_screen (o : Output) : Output :=
  { o with cursor_controller := scroll o.cursor_controller o.editor_rows }

/-- The frame painted by `Output::refresh_screen`: scroll, then draw the rows. -/
def refresh_frame (o : Output) : List (List Char) := draw_rows (refresh_screen o)

/-- The viewport-relative coordinates `(cursor_x, cursor_y)` passed to
`cursor::MoveTo` at the end of `Output::refresh_screen`:
`(render_x - column_offset, cursor_y - row_offset)` after scrolling. -/
def refresh_cursor (o : Output) : Nat × Nat :=
  let c := (refresh_screen o).cursor_controller
  (c.render_x - c.column_offset, c.cursor_y - c.row_offset)

/-- The cursor clamp invariant of the design: on a document row the cursor
column never exceeds the rendered length; past the document it is zero. -/
def cursorClamped (c : CursorController) (rows : List Row) : Prop :=
  (c.cursor_y < number_of_rows rows → c.cursor_x ≤ (get_render rows c.cursor_y).length) ∧
  (number_of_rows rows ≤ c.cursor_y → c.cursor_x = 0)

instance (c : CursorController) (rows : List Row) : Decidable (cursorClamped c rows) := by
  unfold cursorClamped; infer_instance

/-- Modelled from the spec's words for claim C3: the column offset is lowered
to `render_x` when the cursor left the viewport on the left, raised to
`render_x - screen_columns + 1` when it left on the right, and otherwise
unchanged. -/
def spec_column_offset (column_offset render_x screen_columns : Nat) : Nat :=
  if render_x < column_offset then render_x
  else if render_x ≥ column_offset + screen_columns then render_x - screen_columns + 1
  else column_offset

/-- The column-offset update the source actually performs inside `scroll`:
lowered to `cursor_x` (not `render_x`) when `cursor_x < column_offset`, then
raised from `render_x` exactly as the spec says. -/
def amended_column_offset (column_offset cursor_x render_x screen_columns : Nat) : Nat :=
  let lowered := if cursor_x < column_offset then cursor_x else column_offset
  if render_x ≥ lowered + screen_columns then render_x - screen_columns + 1 else lowered

/-- Repeating a single-step move `n` times, the claim-side description of the
page keys' replay loop. -/
def moveN (n : Nat) (d : MoveDir) (rows : List Row) (c : CursorController) :
    CursorController :=
  Nat.iterate (fun c => move_cursor c d rows) n c

/-- A single-row document whose only line is one tab character, loaded as by
`EditorRows::from_file`.  Its raw length is 1 while its rendered length is 8. -/
def tabDoc : List Row := from_file [['\t']]

/-- Concrete cursor state for the claim C2 counterexample: the cursor sits past
the end of an empty document with a stale positive `cursor_x` and
`column_offset`. -/
def c2CounterState : CursorController :=
  { cursor_x := 5, cursor_y := 0, screen_columns := 10, screen_rows := 5,
    row_offset := 0, column_offset := 3, render_x := 0 }

/-- Concrete cursor state for the claim C3 counterexample: the cursor is on the
tab row with `cursor_x = 1` (so `render_x = 8`) while `column_offset = 5`. -/
def c3CounterState : CursorController :=
  { cursor_x := 1, cursor_y := 0, screen_columns := 50, screen_rows := 5,
    row_offset := 0, column_offset := 5, render_x := 0 }

/-- The key presses that crash the viewer on `tabDoc`: two Right arrows. -/
def c1Keys : List Command := [.Move .Right, .Move .Right]

/-- The editor state reached by pressing Right twice on `tabDoc` from the
initial state with an 80×24 terminal. -/
def c1Output : Output := apply_keys (Output.new (80, 24) tabDoc) c1Keys

/-! ## Helper lemmas about the padding loop and the renderer -/

/-- Closed form of the padding loop: with enough fuel it pads the output with
spaces up to the next multiple of `TAB_STOP` (no padding when the column is
already a multiple), which is exactly what the unbounded Rust `while` loop
computes. -/
theorem padLoopGo_spec (fuel : Nat) : ∀ (i : Nat) (out : List Char),
    (TAB_STOP - i % TAB_STOP) % TAB_STOP ≤ fuel →
    padLoopGo fuel i out =
      (i + (TAB_STOP - i % TAB_STOP) % TAB_STOP,
       out ++ List.replicate ((TAB_STOP - i % TAB_STOP) % TAB_STOP) ' ') := by
  induction fuel with
  | zero =>
    intro i out h
    simp only [TAB_STOP] at h
    have hz : i % 8 = 0 := by omega
    simp [padLoopGo, TAB_STOP, hz]
  | succ fuel ih =>
    intro i out h
    by_cases hz : i % TAB_STOP = 0
    · simp only [TAB_STOP] at hz
      simp [padLoopGo, TAB_STOP, hz]
    · simp only [TAB_STOP] at hz h ⊢
      have hstep : padLoopGo (fuel + 1) i out = padLoopGo fuel (i + 1) (out ++ [' ']) := by
        simp [padLoopGo, TAB_STOP, hz]
      have hpad : (8 - (i + 1) % 8) % 8 + 1 = (8 - i % 8) % 8 := by omega
      have hle : (TAB_STOP - (i + 1) % TAB_STOP) % TAB_STOP ≤ fuel := by
        simp only [TAB_STOP]; omega
      rw [hstep, ih (i + 1) (out ++ [' ']) hle]
      simp only [TAB_STOP]
      rw [← hpad, List.replicate_succ]
      simp [List.append_assoc]
      omega

/-- The padding loop with its actual fuel `TAB_STOP`, in closed form. -/
theorem padLoop_spec (index : Nat) (out : List Char) :
    padLoop index out =
      (index + (TAB_STOP - index % TAB_STOP) % TAB_STOP,
       out ++ List.replicate ((TAB_STOP - index % TAB_STOP) % TAB_STOP) ' ') :=
  padLoopGo_spec TAB_STOP index out (by simp only [TAB_STOP]; omega)

/-- The renderer processes a concatenation left to right. -/
theorem renderRowAux_append (l l' : List Char) : ∀ (i : Nat) (out : List Char),
    renderRowAux (l ++ l') i out =
      renderRowAux l' (renderRowAux l i out).1 (renderRowAux l i out).2 := by
  induction l with
  | nil => intro i out; simp [renderRowAux]
  | cons c cs ih =>
    intro i out
    by_cases hc : c = '\t' <;> simp [renderRowAux, hc, ih]

/-- The renderer's output grows by exactly the amount its column counter does. -/
theorem renderRowAux_length (l : List Char) : ∀ (i : Nat) (out : List Char),
    (renderRowAux l i out).2.length + i = out.length + (renderRowAux l i out).1 := by
  induction l with
  | nil => intro i out; simp [renderRowAux, Nat.add_comm]
  | cons c cs ih =>
    intro i out
    by_cases hc : c = '\t'
    · simp only [renderRowAux, hc, if_pos, padLoop_spec]
      have h := ih ((i + 1) + (TAB_STOP - (i + 1) % TAB_STOP) % TAB_STOP)
        ((out ++ [' ']) ++ List.replicate ((TAB_STOP - (i + 1) % TAB_STOP) % TAB_STOP) ' ')
      simp only [List.length_append, List.length_replicate, List.length_cons,
        List.length_nil] at h ⊢
      omega
    · simp only [renderRowAux, hc, if_neg, ite_false]
      have h := ih (i + 1) (out ++ [c])
      simp only [List.length_append, List.length_cons, List.length_nil] at h ⊢
      omega

/-- The length of the rendered line equals the final value of the column
counter `index` of `render_row`. -/
theorem renderRow_length (raw : List Char) : (renderRow raw).length = renderColumn raw := by
  have h := renderRowAux_length raw 0 []
  simpa [renderRow, renderColumn] using h

/-- The renderer's column counter evolves exactly by the fold of
`get_render_x`'s step function. -/
theorem renderColumn_fold (l : List Char) : ∀ (i : Nat) (out : List Char),
    (renderRowAux l i out).1 = l.foldl render_x_step i := by
  induction l with
  | nil => intro i out; simp [renderRowAux]
  | cons c cs ih =>
    intro i out
    by_cases hc : c = '\t'
    · simp only [renderRowAux, hc, if_pos, padLoop_spec, List.foldl_cons, ih]
      congr 1
      simp only [render_x_step, hc, if_pos, TAB_STOP]
      omega
    · simp only [renderRowAux, hc, if_neg, ite_false, List.foldl_cons, ih]
      congr 1
      simp [render_x_step, hc]

/-- A line ending in a tab ends on a column that is a multiple of the tab
stop: the padding loop stops exactly at multiples of `TAB_STOP`. -/
theorem renderColumn_append_tab (l : List Char) :
    renderColumn (l ++ ['\t']) % TAB_STOP = 0 := by
  unfold renderColumn
  rw [renderRowAux_append]
  simp only [renderRowAux, if_pos, padLoop_spec]
  simp only [TAB_STOP]
  omega

/-- Every character makes `get_render_x`'s fold advance by at least one
column. -/
theorem foldl_render_x_step_ge (l : List Char) :
    ∀ a : Nat, a + l.length ≤ l.foldl render_x_step a := by
  induction l with
  | nil => intro a; simp
  | cons c cs ih =>
    intro a
    have h1 : a + 1 ≤ render_x_step a c := by
      simp only [render_x_step, TAB_STOP]
      split_ifs <;> omega
    have h2 := ih (render_x_step a c)
    simp only [List.foldl_cons, List.length_cons]
    omega

/-- Within the raw row, the rendered column is at least the raw column: tabs
only expand. -/
theorem cursor_x_le_get_render_x (cursor_x : Nat) (row : Row)
    (h : cursor_x ≤ row.row_content.length) :
    cursor_x ≤ get_render_x cursor_x row := by
  unfold get_render_x
  have hf := foldl_render_x_step_ge (row.row_content.take cursor_x) 0
  simp only [List.length_take, Nat.zero_add] at hf
  omega

/-! ## Helper lemmas about the cursor controller -/

/-- Projection of `scroll`: the recomputed `render_x`. -/
theorem scroll_render_x (s : CursorController) (rows : List Row) :
    (scroll s rows).render_x =
      if s.cursor_y < number_of_rows rows
      then get_render_x s.cursor_x (get_editor_row rows s.cursor_y) else 0 := rfl

/-- Projection of `scroll`: the adjusted `row_offset`. -/
theorem scroll_row_offset (s : CursorController) (rows : List Row) :
    (scroll s rows).row_offset =
      if s.cursor_y ≥ min s.row_offset s.cursor_y + s.screen_rows
      then s.cursor_y - s.screen_rows + 1 else min s.row_offset s.cursor_y := rfl

/-- Projection of `scroll`: the adjusted `column_offset`. -/
theorem scroll_column_offset (s : CursorController) (rows : List Row) :
    (scroll s rows).column_offset =
      if (if s.cursor_y < number_of_rows rows
            then get_render_x s.cursor_x (get_editor_row rows s.cursor_y) else 0) ≥
          min s.column_offset s.cursor_x + s.screen_columns
      then (if s.cursor_y < number_of_rows rows
            then get_render_x s.cursor_x (get_editor_row rows s.cursor_y) else 0) -
          s.screen_columns + 1
      else min s.column_offset s.cursor_x := rfl

/-- Projection of `scroll`: the cursor itself is untouched. -/
theorem scroll_cursor_y (s : CursorController) (rows : List Row) :
    (scroll s rows).cursor_y = s.cursor_y := rfl

/-- Every single call of `move_cursor` re-establishes the clamp invariant,
whatever the input state was. -/
theorem move_cursor_clamped (s : CursorController) (d : MoveDir) (rows : List Row) :
    cursorClamped (move_cursor s d rows) rows := by
  unfold move_cursor clamp_cursor_x cursorClamped
  by_cases h : (move_cursor_step s d rows).cursor_y < number_of_rows rows <;> simp [h]

/-- The clamp invariant is preserved by any sequence of moves. -/
theorem foldl_moves_clamped (rows : List Row) (moves : List MoveDir) :
    ∀ c : CursorController, cursorClamped c rows →
    cursorClamped (moves.foldl (fun c d => move_cursor c d rows) c) rows := by
  induction moves with
  | nil => intro c h; simpa using h
  | cons m ms ih =>
    intro c _h
    exact ih _ (move_cursor_clamped c m rows)

/-- The page keys' replay loop is an iterate of the single-step move. -/
theorem foldl_range_eq_moveN (n : Nat) (d : MoveDir) (rows : List Row)
    (c : CursorController) :
    (List.range n).foldl (fun c _ => move_cursor c d rows) c = moveN n d rows c := by
  induction n with
  | zero => simp [moveN]
  | succ n ih =>
    rw [List.range_succ, List.foldl_append, ih]
    simp [moveN, Function.iterate_succ_apply']

/-- After at least one replayed move the clamp invariant holds. -/
theorem foldl_range_clamped (n : Nat) (hn : 1 ≤ n) (d : MoveDir) (rows : List Row)
    (c : CursorController) :
    cursorClamped ((List.range n).foldl (fun c _ => move_cursor c d rows) c) rows := by
  obtain ⟨m, rfl⟩ : ∃ m, n = m + 1 := ⟨n - 1, by omega⟩
  rw [List.range_succ, List.foldl_append]
  simp only [List.foldl_cons, List.foldl_nil]
  exact move_cursor_clamped _ d rows

/-! ## The claims -/

/-- C5: for every raw input line the length of `render_row`'s output equals the
final value of its column counter, where a non-tab advances the column by one
and a tab pushes at least one space and pads to the next multiple of
`TAB_STOP`; and the column reached right after processing a tab is a multiple
of `TAB_STOP` (the column just after the tab at position `i` of a line `l` is
`renderColumn (l.take i ++ [tab])`, so the second conjunct, universally
quantified over the line, covers every tab of every input). -/
theorem render_length_eq_final_column (line : List Char) :
    (renderRow line).length = renderColumn line ∧
    renderColumn (line ++ ['\t']) % TAB_STOP = 0 :=
  ⟨renderRow_length line, renderColumn_append_tab line⟩

/-- C6: for a cursor column within the raw content, `get_render_x` computes
exactly the length of the `render_row` output of the raw prefix of the first
`cursor_x` characters — the two tab-expansion computations agree. -/
theorem get_render_x_agrees (row : Row) (cursor_x : Nat)
    (_h : cursor_x ≤ row.row_content.length) :
    get_render_x cursor_x row = (renderRow (row.row_content.take cursor_x)).length := by
  rw [renderRow_length]
  unfold renderColumn get_render_x
  rw [renderColumn_fold]

/-- Witness for C6 at the row "a⟨tab⟩b" and cursor column 2. -/
theorem get_render_x_agrees_witness :
    2 ≤ (mkRow ['a', '\t', 'b']).row_content.length ∧
    get_render_x 2 (mkRow ['a', '\t', 'b']) =
      (renderRow ((mkRow ['a', '\t', 'b']).row_content.take 2)).length :=
  ⟨by decide, get_render_x_agrees (mkRow ['a', '\t', 'b']) 2 (by decide)⟩

/-- C4: after any finite sequence of single-step moves from the initial cursor
state over any document, the cursor is clamped: `cursor_x` never exceeds the
rendered length of the current row, and is zero past the last row. -/
theorem cursor_clamp_invariant (win_size : Nat × Nat) (rows : List Row)
    (moves : List MoveDir) :
    cursorClamped
      (moves.foldl (fun c d => move_cursor c d rows) (CursorController.new win_size))
      rows := by
  apply foldl_moves_clamped
  constructor <;> intro _h <;> simp [CursorController.new]

/-- C10: a single-step move only ever changes `cursor_x` and `cursor_y`; the
other five fields of the cursor state are untouched (scroll adjustment lives in
the separate `scroll` step). -/
theorem move_cursor_frame (s : CursorController) (d : MoveDir) (rows : List Row) :
    (move_cursor s d rows).render_x = s.render_x ∧
    (move_cursor s d rows).row_offset = s.row_offset ∧
    (move_cursor s d rows).column_offset = s.column_offset ∧
    (move_cursor s d rows).screen_rows = s.screen_rows ∧
    (move_cursor s d rows).screen_columns = s.screen_columns := by
  cases d <;> simp [move_cursor, clamp_cursor_x, move_cursor_step] <;>
    split_ifs <;> simp

/-- C3 counterexample: on the tab document with `cursor_x = 1` (so
`render_x = 8`) and `column_offset = 5`, the spec's rule leaves the offset at 5
(the cursor is inside the viewport in rendered coordinates), but `scroll`
lowers it to `cursor_x = 1` — the source takes `min(column_offset, cursor_x)`,
not `min(column_offset, render_x)`.  `get_render_x`'s slice is in bounds, so no
precondition is violated. -/
theorem scroll_column_offset_not_spec :
    get_render_x_in_bounds c3CounterState tabDoc ∧
    (scroll c3CounterState tabDoc).column_offset = 1 ∧
    spec_column_offset c3CounterState.column_offset
      (scroll c3CounterState tabDoc).render_x c3CounterState.screen_columns = 5 ∧
    (scroll c3CounterState tabDoc).column_offset ≠
      spec_column_offset c3CounterState.column_offset
        (scroll c3CounterState tabDoc).render_x c3CounterState.screen_columns := by
  decide

/-- C3 amended: `scroll`'s column-offset update lowers the offset to
`cursor_x` when `cursor_x < column_offset` (not to `render_x`), and then raises
it to `render_x - screen_columns + 1` when
`render_x ≥ column_offset + screen_columns`, otherwise leaving it unchanged. -/
theorem scroll_column_offset_amended (s : CursorController) (rows : List Row) :
    (scroll s rows).column_offset =
      amended_column_offset s.column_offset s.cursor_x (scroll s rows).render_x
        s.screen_columns := by
  rw [scroll_column_offset, scroll_render_x]
  simp only [amended_column_offset]
  split_ifs <;> omega

/-- C2 counterexample: a cursor state with `screen_rows = 5 ≥ 1`,
`screen_columns = 10 ≥ 1` over the empty document, on which `scroll` completes
without any precondition violation (`get_render_x` is not even reached), yet
afterwards `column_offset = 3 > 0 = render_x`: the claim's containment fails
because the state has a stale `cursor_x = 5` past the end of the document. -/
theorem scroll_containment_counterexample :
    1 ≤ c2CounterState.screen_rows ∧
    1 ≤ c2CounterState.screen_columns ∧
    get_render_x_in_bounds c2CounterState [] ∧
    ¬ (scroll c2CounterState []).column_offset ≤ (scroll c2CounterState []).render_x := by
  decide

/-- C2 amended: for a state with `screen_rows ≥ 1` and `screen_columns ≥ 1`
satisfying the design's cursor invariant (`cursor_x = 0` past the last row) and
`get_render_x`'s slice precondition, `scroll` leaves the cursor inside the
viewport: `row_offset ≤ cursor_y < row_offset + screen_rows` and
`column_offset ≤ render_x < column_offset + screen_columns`; and when the
document has fewer rows than the screen, a zero `row_offset` stays zero
(provided `cursor_y ≤ line_count()`, the design's vertical invariant). -/
theorem scroll_containment (s : CursorController) (rows : List Row)
    (hr : 1 ≤ s.screen_rows) (hc : 1 ≤ s.screen_columns)
    (hbound : get_render_x_in_bounds s rows)
    (hpast : number_of_rows rows ≤ s.cursor_y → s.cursor_x = 0) :
    (scroll s rows).row_offset ≤ s.cursor_y ∧
    s.cursor_y < (scroll s rows).row_offset + s.screen_rows ∧
    (scroll s rows).column_offset ≤ (scroll s rows).render_x ∧
    (scroll s rows).render_x < (scroll s rows).column_offset + s.screen_columns ∧
    (number_of_rows rows < s.screen_rows → s.row_offset = 0 →
      s.cursor_y ≤ number_of_rows rows → (scroll s rows).row_offset = 0) := by
  have key : min s.column_offset s.cursor_x ≤
      (if s.cursor_y < number_of_rows rows
        then get_render_x s.cursor_x (get_editor_row rows s.cursor_y) else 0) := by
    by_cases h : s.cursor_y < number_of_rows rows
    · have hle := cursor_x_le_get_render_x s.cursor_x (get_editor_row rows s.cursor_y)
        (hbound h)
      simp only [if_pos h]
      omega
    · have hx0 : s.cursor_x = 0 := hpast (Nat.le_of_not_lt h)
      simp [h, hx0]
  rw [scroll_row_offset, scroll_column_offset, scroll_render_x] at *
  refine ⟨?_, ?_, ?_, ?_, ?_⟩ <;> split_ifs at * <;> omega

/-- Witness for the amended C2 at the initial 10×5 state over the document
["ab"]. -/
theorem scroll_containment_witness :
    1 ≤ (CursorController.new (10, 5)).screen_rows ∧
    1 ≤ (CursorController.new (10, 5)).screen_columns ∧
    get_render_x_in_bounds (CursorController.new (10, 5)) (from_file [['a', 'b']]) ∧
    (number_of_rows (from_file [['a', 'b']]) ≤ (CursorController.new (10, 5)).cursor_y →
      (CursorController.new (10, 5)).cursor_x = 0) ∧
    ((scroll (CursorController.new (10, 5)) (from_file [['a', 'b']])).row_offset ≤
        (CursorController.new (10, 5)).cursor_y ∧
      (CursorController.new (10, 5)).cursor_y <
        (scroll (CursorController.new (10, 5)) (from_file [['a', 'b']])).row_offset +
          (CursorController.new (10, 5)).screen_rows ∧
      (scroll (CursorController.new (10, 5)) (from_file [['a', 'b']])).column_offset ≤
        (scroll (CursorController.new (10, 5)) (from_file [['a', 'b']])).render_x ∧
      (scroll (CursorController.new (10, 5)) (from_file [['a', 'b']])).render_x <
        (scroll (CursorController.new (10, 5)) (from_file [['a', 'b']])).column_offset +
          (CursorController.new (10, 5)).screen_columns ∧
      (number_of_rows (from_file [['a', 'b']]) < (CursorController.new (10, 5)).screen_rows →
        (CursorController.new (10, 5)).row_offset = 0 →
        (CursorController.new (10, 5)).cursor_y ≤ number_of_rows (from_file [['a', 'b']]) →
        (scroll (CursorController.new (10, 5)) (from_file [['a', 'b']])).row_offset = 0)) :=
  ⟨by decide, by decide, by decide, by decide,
    scroll_containment (CursorController.new (10, 5)) (from_file [['a', 'b']])
      (by decide) (by decide) (by decide) (by decide)⟩

/-- C1 is violated by the code: pressing Right twice on the loaded one-line
document "⟨tab⟩" (raw length 1, rendered length 8) drives `cursor_x` to 2,
because `move_cursor` clamps against the rendered length; the next
`refresh_screen` then calls `scroll`, whose `get_render_x` slices
`row_content[..2]` on a 1-byte row — out of bounds, a panic in the Rust code.
This theorem evaluates the code at that failing input. -/
theorem get_render_x_slice_out_of_bounds :
    c1Output.cursor_controller.cursor_y = 0 ∧
    c1Output.cursor_controller.cursor_x = 2 ∧
    (get_editor_row c1Output.editor_rows
      c1Output.cursor_controller.cursor_y).row_content.length = 1 ∧
    ¬ get_render_x_in_bounds c1Output.cursor_controller c1Output.editor_rows := by
  decide

/-- C9: on an empty document with an 80×24 screen, the frame drawn by
`refresh_screen` has a tilde-only row everywhere except at row index
8 = 24 / 3, which carries the centered banner — a leading tilde, 24 spaces of
padding, then "Pound Editor --- Version 3.0.0" — and the terminal cursor is
repositioned to viewport coordinates (0, 0). -/
theorem empty_document_frame :
    refresh_frame (Output.new (80, 24) []) =
      (List.range 24).map (fun i =>
        if i = 8 then
          ('~' :: List.replicate 24 ' ') ++ "Pound Editor --- Version 3.0.0".toList
        else ['~']) ∧
    refresh_cursor (Output.new (80, 24) []) = (0, 0) := by
  decide

/-- C7: a PageUp key sets `cursor_y` to `row_offset` and then replays the
single-step Up move `screen_rows` times; a PageDown key sets `cursor_y` to
`min(row_offset + screen_rows - 1, line_count())` and then replays Down
`screen_rows` times; afterwards the cursor clamp invariant holds (the replay
count in the source is `win_size.1`, equal to the controller's `screen_rows`
by construction of `Output::new`). -/
theorem page_keys_replay (o : Output)
    (hwin : o.win_rows = o.cursor_controller.screen_rows)
    (hrows : 1 ≤ o.cursor_controller.screen_rows) :
    (process_keypress o .PageUp).cursor_controller =
      moveN o.cursor_controller.screen_rows .Up o.editor_rows
        { o.cursor_controller with cursor_y := o.cursor_controller.row_offset } ∧
    (process_keypress o .PageDown).cursor_controller =
      moveN o.cursor_controller.screen_rows .Down o.editor_rows
        { o.cursor_controller with
            cursor_y := min
              (o.cursor_controller.row_offset + o.cursor_controller.screen_rows - 1)
              (number_of_rows o.editor_rows) } ∧
    cursorClamped (process_keypress o .PageUp).cursor_controller o.editor_rows ∧
    cursorClamped (process_keypress o .PageDown).cursor_controller o.editor_rows := by
  refine ⟨?_, ?_, ?_, ?_⟩
  · simp only [process_keypress, hwin, foldl_range_eq_moveN]
  · simp only [process_keypress, hwin, foldl_range_eq_moveN]
    congr 2
    omega
  · simp only [process_keypress, hwin]
    exact foldl_range_clamped _ hrows _ _ _
  · simp only [process_keypress, hwin]
    exact foldl_range_clamped _ hrows _ _ _

/-- Witness for C7 at the initial 80×24 state over the empty document. -/
theorem page_keys_replay_witness :
    (Output.new (80, 24) []).win_rows =
      (Output.new (80, 24) []).cursor_controller.screen_rows ∧
    1 ≤ (Output.new (80, 24) []).cursor_controller.screen_rows ∧
    ((process_keypress (Output.new (80, 24) []) .PageUp).cursor_controller =
      moveN (Output.new (80, 24) []).cursor_controller.screen_rows .Up
        (Output.new (80, 24) []).editor_rows
        { (Output.new (80, 24) []).cursor_controller with
            cursor_y := (Output.new (80, 24) []).cursor_controller.row_offset } ∧
    (process_keypress (Output.new (80, 24) []) .PageDown).cursor_controller =
      moveN (Output.new (80, 24) []).cursor_controller.screen_rows .Down
        (Output.new (80, 24) []).editor_rows
        { (Output.new (80, 24) []).cursor_controller with
            cursor_y := min
              ((Output.new (80, 24) []).cursor_controller.row_offset +
                (Output.new (80, 24) []).cursor_controller.screen_rows - 1)
              (number_of_rows (Output.new (80, 24) []).editor_rows) } ∧
    cursorClamped (process_keypress (Output.new (80, 24) []) .PageUp).cursor_controller
      (Output.new (80, 24) []).editor_rows ∧
    cursorClamped (process_keypress (Output.new (80, 24) []) .PageDown).cursor_controller
      (Output.new (80, 24) []).editor_rows) :=
  ⟨by decide, by decide, page_keys_replay (Output.new (80, 24) []) (by decide) (by decide)⟩

/-- C8: from the last rendered column of a non-final row N, one Right (which
wraps to the start of row N+1) followed by one Left (which wraps back to the
end of row N) returns the cursor exactly to (row N, last column). -/
theorem right_then_left_roundtrip (rows : List Row) (N : Nat) (s : CursorController)
    (hN : N + 1 < number_of_rows rows) (hy : s.cursor_y = N)
    (hx : s.cursor_x = (get_render rows N).length) :
    (move_cursor (move_cursor s .Right rows) .Left rows).cursor_y = N ∧
    (move_cursor (move_cursor s .Right rows) .Left rows).cursor_x =
      (get_render rows N).length := by
  obtain ⟨x, y, sc, sr, ro, co, rx⟩ := s
  dsimp only at hy hx
  subst hy
  subst hx
  have hyn : y < number_of_rows rows := by omega
  simp [move_cursor, move_cursor_step, clamp_cursor_x, hyn, hN]

/-- Witness for C8 on the two-row document ["a", ""] at row 0, column 1. -/
theorem right_then_left_roundtrip_witness :
    0 + 1 < number_of_rows (from_file [['a'], []]) ∧
    ({ CursorController.new (80, 24) with cursor_x := 1 }).cursor_y = 0 ∧
    ({ CursorController.new (80, 24) with cursor_x := 1 }).cursor_x =
      (get_render (from_file [['a'], []]) 0).length ∧
    ((move_cursor (move_cursor { CursorController.new (80, 24) with cursor_x := 1 }
        .Right (from_file [['a'], []])) .Left (from_file [['a'], []])).cursor_y = 0 ∧
      (move_cursor (move_cursor { CursorController.new (80, 24) with cursor_x := 1 }
        .Right (from_file [['a'], []])) .Left (from_file [['a'], []])).cursor_x =
        (get_render (from_file [['a'], []]) 0).length) :=
  ⟨by decide, by decide, by decide,
    right_then_left_roundtrip (from_file [['a'], []]) 0
      { CursorController.new (80, 24) with cursor_x := 1 }
      (by decide) (by decide) (by decide)⟩
